import Mathlib

/-!
# Verification of the UrbanThread loyalty-program core (`src/app.py`)

Shallow embedding of the points-ledger and tier-evaluation engine.

Modelling conventions:
* The SQLite tables `Customers`, `PointsLedger` and `Rewards` are lists of
  records; `SELECT ... WHERE` is `List.filter`, `fetchone` is `List.head?`,
  `INSERT` is list append, `UPDATE ... WHERE` is `List.map` with a guard.
* SQL `SUM(points_change)` returns NULL when no row matches; this is modelled
  by `sql_sum : List Int → Option Int`, and the Python
  `result[0] if ... is not None else 0` by `Option.getD 0`.
* Timestamps are stored by the database as text `YYYY-MM-DD HH:MM:SS` and
  compared lexicographically by `BETWEEN`.  A `Timestamp` record with a
  numeric `key` encoding reproduces exactly that order for well-formed
  stamps (every field below 100 except the year, which is the most
  significant digit block).  The store assigns the timestamp at insert time
  (schema default); the model passes the store clock as an explicit `now`
  argument.
* `datetime.now()` (used by `get_customer_spending_this_year` and therefore
  by `update_customer_tier`) is the same ambient clock, passed explicitly.
* Python float division `points / POINTS_PER_DOLLAR` is modelled in `ℚ`;
  for integer point totals in range, division by 10 and comparison against
  the threshold 500 agree between IEEE doubles and exact rationals.
-/

/-- A wall-clock timestamp as stored in the `timestamp` column. -/
structure Timestamp where
  year : Nat
  month : Nat
  day : Nat
  hour : Nat
  minute : Nat
  second : Nat
deriving DecidableEq

/-- Numeric key reproducing the lexicographic order of the stored
`YYYY-MM-DD HH:MM:SS` text for well-formed stamps. -/
def Timestamp.key (t : Timestamp) : Nat :=
  ((((t.year * 100 + t.month) * 100 + t.day) * 100 + t.hour) * 100 + t.minute) * 100 + t.second

/-- Text comparison of two stored timestamps (`<=` on the column values). -/
def tsLe (a b : Timestamp) : Bool :=
  a.key ≤ b.key

/-- SQL `ts BETWEEN lo AND hi` (inclusive on both ends). -/
def tsBetween (ts lo hi : Timestamp) : Bool :=
  tsLe lo ts && tsLe ts hi

/-- A row of the `Customers` table. -/
structure Customer where
  customer_id : Nat
  email : String
  first_name : String
  last_name : String
  tier : String
deriving DecidableEq

/-- A row of the `PointsLedger` table. -/
structure LedgerEntry where
  customer_id : Nat
  points_change : Int
  transaction_type : String
  note : String
  timestamp : Timestamp
deriving DecidableEq

/-- A row of the `Rewards` table. -/
structure Reward where
  reward_id : Nat
  name : String
  points_cost : Int
deriving DecidableEq

/-- The mutable database state: the `Customers` and `PointsLedger` tables.
(The `Rewards` table is read-only for the core and is passed separately.) -/
structure State where
  ledger : List LedgerEntry
  customers : List Customer
deriving DecidableEq

/-- Business rule from `app.py` line 7: 10 points per dollar spent. -/
def POINTS_PER_DOLLAR : Nat := 10

/-- Business rule from `app.py` line 8: spend 500 dollars in a year for Gold. -/
def GOLD_TIER_THRESHOLD : Nat := 500

/-- SQL `SUM` over a column: NULL (`none`) when no rows, else the sum. -/
def sql_sum (xs : List Int) : Option Int :=
  if xs.isEmpty then none else some xs.sum

/-- `get_customer_by_email` (app.py lines 19-26):
`SELECT * FROM Customers WHERE email = ?` then `fetchone`. -/
def get_customer_by_email (email : String) (customers : List Customer) : Option Customer :=
  (customers.filter (fun c => c.email == email)).head?

/-- `SELECT * FROM Customers WHERE customer_id = ?` then `fetchone`
(the lookup inside `update_customer_tier`, app.py line 104). -/
def get_customer_by_id (cid : Nat) (customers : List Customer) : Option Customer :=
  (customers.filter (fun c => c.customer_id == cid)).head?

/-- `get_customer_point_balance` (app.py lines 28-35):
`SELECT SUM(points_change) FROM PointsLedger WHERE customer_id = ?`,
returning 0 when the sum is NULL. -/
def get_customer_point_balance (ledger : List LedgerEntry) (cid : Nat) : Int :=
  (sql_sum ((ledger.filter (fun e => e.customer_id == cid)).map
    (fun e => e.points_change))).getD 0

/-- `add_points_transaction` (app.py lines 60-69): an unconditional
`INSERT INTO PointsLedger`; the store assigns the timestamp `now`. -/
def add_points_transaction (ledger : List LedgerEntry) (cid : Nat) (points : Int)
    (ttype : String) (note : String) (now : Timestamp) : List LedgerEntry :=
  ledger ++ [⟨cid, points, ttype, note, now⟩]

/-- `get_customer_spending_this_year` (app.py lines 71-93): sums
`points_change` over `earn` entries with
`timestamp BETWEEN current_year-01-01 00:00:00 AND current_year-12-31 23:59:59`,
then divides by `POINTS_PER_DOLLAR`.  `current_year` is `datetime.now().year`,
passed explicitly. -/
def get_customer_spending_this_year (ledger : List LedgerEntry) (cid : Nat)
    (current_year : Nat) : ℚ :=
  let points_earned_this_year : Int :=
    (sql_sum ((ledger.filter (fun e =>
      e.customer_id == cid && e.transaction_type == "earn" &&
        tsBetween e.timestamp ⟨current_year, 1, 1, 0, 0, 0⟩
          ⟨current_year, 12, 31, 23, 59, 59⟩)).map
      (fun e => e.points_change))).getD 0
  (points_earned_this_year : ℚ) / (POINTS_PER_DOLLAR : ℚ)

/-- The tier classification inside `update_customer_tier` (app.py line 99):
`new_tier = "Gold" if spending >= GOLD_TIER_THRESHOLD else "Standard"`. -/
def new_tier_for (spending : ℚ) : String :=
  if spending ≥ (GOLD_TIER_THRESHOLD : ℚ) then "Gold" else "Standard"

/-- `UPDATE Customers SET tier = ? WHERE customer_id = ?` (app.py line 108). -/
def set_tier (customers : List Customer) (cid : Nat) (tier : String) : List Customer :=
  customers.map (fun c => if c.customer_id == cid then { c with tier := tier } else c)

/-- `update_customer_tier` (app.py lines 96-111).  Computes the spending,
classifies, reads the stored tier and writes the new tier only when it
differs.  `none` models the uncaught `TypeError` raised when the customer
row is missing (`fetchone()` returns NULL).  The second component of the
result is the Python function's returned value: the body has no `return`
statement, so the function returns `None` — modelled as `none`, typed
against the specification's `(previous_tier, new_tier, changed)` contract
so the two can be compared. -/
def update_customer_tier (s : State) (cid : Nat) (current_year : Nat) :
    Option (State × Option (String × String × Bool)) :=
  let spending := get_customer_spending_this_year s.ledger cid current_year
  let new_tier := new_tier_for spending
  match get_customer_by_id cid s.customers with
  | none => none
  | some c =>
    if new_tier ≠ c.tier then
      some (⟨s.ledger, set_tier s.customers cid new_tier⟩, none)
    else
      some (s, none)

/-- Outcome reported by a page action through the Streamlit widgets. -/
inductive UiResult where
  | success
  | warningFillFields
  | customerNotFound
  | rewardNotFound
  | insufficientPoints
  | errorShown
deriving DecidableEq

/-- The "Add Points (Purchase)" button handler (app.py lines 189-205):
validate the form, look up the customer, insert an `earn` entry worth
`int(purchase_amount * POINTS_PER_DOLLAR)` points, then re-evaluate the
tier.  Python `int()` truncates; the amount is entered positive. -/
def add_points_page (s : State) (email : String) (purchase_amount : ℚ)
    (order_id : String) (now : Timestamp) : State × UiResult :=
  if email = "" ∨ purchase_amount = 0 ∨ order_id = "" then
    (s, UiResult.warningFillFields)
  else
    match get_customer_by_email email s.customers with
    | none => (s, UiResult.customerNotFound)
    | some c =>
      let points_to_add : Int := (purchase_amount * (POINTS_PER_DOLLAR : ℚ)).floor
      let s1 : State := ⟨add_points_transaction s.ledger c.customer_id points_to_add
        "earn" ("Order #" ++ order_id) now, s.customers⟩
      match update_customer_tier s1 c.customer_id now.year with
      | some (s2, _) => (s2, UiResult.success)
      | none => (s1, UiResult.errorShown)

/-- The "Redeem Reward" button handler (app.py lines 227-252): look up the
customer, resolve the selected reward's cost
(`next((r for r in rewards if r.reward_id == id), None)` is
`filter` + `head?`), and record `-cost` as a `redeem` entry only when
`current_balance >= cost`; otherwise show "Insufficient points" and write
nothing.  No tier re-evaluation happens on this page. -/
def redeem_page (s : State) (email : String) (rewards : List Reward)
    (selected_id : Nat) (now : Timestamp) : State × UiResult :=
  match get_customer_by_email email s.customers with
  | none => (s, UiResult.customerNotFound)
  | some c =>
    match (rewards.filter (fun r => r.reward_id == selected_id)).head? with
    | none => (s, UiResult.rewardNotFound)
    | some r =>
      let current_balance := get_customer_point_balance s.ledger c.customer_id
      if current_balance ≥ r.points_cost then
        (⟨add_points_transaction s.ledger c.customer_id (-r.points_cost)
            "redeem" ("Redeemed: " ++ r.name) now, s.customers⟩,
          UiResult.success)
      else
        (s, UiResult.insufficientPoints)

/-- The "Customer Service" button handler (app.py lines 264-278): validate
the form (zero adjustments are rejected), look up the customer, insert a
`manual_adjust` entry, then re-evaluate the tier.  No balance check. -/
def customer_service_page (s : State) (email : String) (points_to_adjust : Int)
    (reason : String) (now : Timestamp) : State × UiResult :=
  if email = "" ∨ points_to_adjust = 0 ∨ reason = "" then
    (s, UiResult.warningFillFields)
  else
    match get_customer_by_email email s.customers with
    | none => (s, UiResult.customerNotFound)
    | some c =>
      let s1 : State := ⟨add_points_transaction s.ledger c.customer_id points_to_adjust
        "manual_adjust" reason now, s.customers⟩
      match update_customer_tier s1 c.customer_id now.year with
      | some (s2, _) => (s2, UiResult.success)
      | none => (s1, UiResult.errorShown)

/-- A request to the Transaction Recorder, for stating ledger invariants
over arbitrary sequences of record operations. -/
structure RecordOp where
  customer_id : Nat
  points_change : Int
  transaction_type : String
  note : String
  ts : Timestamp

/-- Apply a sequence of record operations to a ledger. -/
def apply_records (ledger : List LedgerEntry) (ops : List RecordOp) : List LedgerEntry :=
  ops.foldl (fun acc o =>
    add_points_transaction acc o.customer_id o.points_change o.transaction_type o.note o.ts) ledger

/-- Specification-side balance (from the spec's words): the sum of
`points_change` over all ledger entries for the customer, written as a
conditional sum over the whole ledger. -/
def balance_spec (ledger : List LedgerEntry) (cid : Nat) : Int :=
  (ledger.map (fun e => if e.customer_id = cid then e.points_change else 0)).sum

/-- Specification-side yearly spend (from the spec's words): sum of
`points_change` over the customer's `earn` entries with timestamp in the
inclusive range `[year-01-01 00:00:00, year-12-31 23:59:59]`, divided by
the fixed ratio of 10 points per currency unit. -/
def yearly_spend_spec (ledger : List LedgerEntry) (cid : Nat) (year : Nat) : ℚ :=
  ((ledger.map (fun e =>
    if e.customer_id = cid ∧ e.transaction_type = "earn" ∧
        tsLe ⟨year, 1, 1, 0, 0, 0⟩ e.timestamp = true ∧
        tsLe e.timestamp ⟨year, 12, 31, 23, 59, 59⟩ = true
    then e.points_change else 0)).sum : ℚ) / 10

/-! ## Helper lemmas -/

theorem sql_sum_getD (xs : List Int) : (sql_sum xs).getD 0 = xs.sum := by
  cases xs with
  | nil => simp [sql_sum]
  | cons a t => simp [sql_sum]

theorem filter_map_sum (p : LedgerEntry → Bool) (l : List LedgerEntry) :
    ((l.filter p).map (fun e => e.points_change)).sum
      = (l.map (fun e => if p e then e.points_change else 0)).sum := by
  induction l with
  | nil => rfl
  | cons a t ih =>
    cases hpa : p a <;> simp [List.filter_cons, hpa, ih]

theorem get_customer_point_balance_eq_spec (l : List LedgerEntry) (cid : Nat) :
    get_customer_point_balance l cid = balance_spec l cid := by
  rw [get_customer_point_balance, sql_sum_getD, filter_map_sum, balance_spec]
  simp only [beq_iff_eq]

/-! ## Claims -/

/-- C1: for every customer, `get_customer_point_balance` returns the sum of
`points_change` over all ledger entries for that customer, returns 0 when
the customer has no entries, and this equality holds for the ledger
produced by any sequence of record operations. -/
theorem balance_matches_ledger_sum :
    (∀ (l : List LedgerEntry) (cid : Nat),
      get_customer_point_balance l cid = balance_spec l cid) ∧
    (∀ (l : List LedgerEntry) (cid : Nat),
      (∀ e ∈ l, e.customer_id ≠ cid) → get_customer_point_balance l cid = 0) ∧
    (∀ (ops : List RecordOp) (cid : Nat),
      get_customer_point_balance (apply_records [] ops) cid
        = balance_spec (apply_records [] ops) cid) := by
  refine ⟨get_customer_point_balance_eq_spec, ?_, fun ops cid =>
    get_customer_point_balance_eq_spec (apply_records [] ops) cid⟩
  intro l cid h
  rw [get_customer_point_balance_eq_spec, balance_spec]
  apply List.sum_eq_zero
  intro x hx
  rcases List.mem_map.mp hx with ⟨e, he, rfl⟩
  simp [h e he]

/-- Witness for C1: a ledger holding only another customer's entry gives
balance 0 for customer 1. -/
theorem balance_matches_ledger_sum_witness :
    get_customer_point_balance [⟨2, 50, "earn", "n", ⟨2024, 6, 1, 12, 0, 0⟩⟩] 1 = 0 :=
  balance_matches_ledger_sum.2.1 [⟨2, 50, "earn", "n", ⟨2024, 6, 1, 12, 0, 0⟩⟩] 1
    (by decide)

/-- C4: the Spend Estimator equals the spec's description: sum of
`points_change` over the customer's `earn` entries whose timestamp lies in
the inclusive year range, divided by the fixed ratio of 10 points per
currency unit. -/
theorem yearly_spend_matches_spec (l : List LedgerEntry) (cid : Nat) (year : Nat) :
    get_customer_spending_this_year l cid year = yearly_spend_spec l cid year := by
  rw [get_customer_spending_this_year, yearly_spend_spec]
  rw [sql_sum_getD, filter_map_sum]
  simp only [Bool.and_eq_true, beq_iff_eq, tsBetween, and_assoc, POINTS_PER_DOLLAR]
  norm_num
  simp [Function.comp_def, apply_ite]

/-- C3: the Tier Evaluator classifies Gold exactly when the estimated
yearly spend reaches the 500-unit threshold; 500.00 is Gold, 499.99 is
Standard. -/
theorem gold_tier_threshold :
    (∀ spending : ℚ, new_tier_for spending = "Gold"
        ↔ spending ≥ (GOLD_TIER_THRESHOLD : ℚ)) ∧
    (∀ spending : ℚ, new_tier_for spending = "Standard"
        ↔ spending < (GOLD_TIER_THRESHOLD : ℚ)) ∧
    new_tier_for 500 = "Gold" ∧ new_tier_for (49999 / 100) = "Standard" := by
  have hgs : ("Gold" : String) ≠ "Standard" := by decide
  have hsg : ("Standard" : String) ≠ "Gold" := by decide
  refine ⟨fun q => ?_, fun q => ?_, ?_, ?_⟩
  · by_cases h : q ≥ (GOLD_TIER_THRESHOLD : ℚ) <;> simp [new_tier_for, h, hsg]
  · by_cases h : q ≥ (GOLD_TIER_THRESHOLD : ℚ) <;>
      simp [new_tier_for, h, hgs, not_le.mp, le_of_not_lt, not_lt.mpr]
  · norm_num [new_tier_for, GOLD_TIER_THRESHOLD]
  · norm_num [new_tier_for, GOLD_TIER_THRESHOLD]

/-- Ledger with one `earn` entry at the last second of 2024 and one at the
first second of 2025, for the year-boundary claim. -/
def boundary_ledger : List LedgerEntry :=
  [⟨1, 100, "earn", "december purchase", ⟨2024, 12, 31, 23, 59, 59⟩⟩,
   ⟨1, 50, "earn", "january purchase", ⟨2025, 1, 1, 0, 0, 0⟩⟩]

/-- C7: the `earn` entry stamped 2024-12-31 23:59:59 is counted toward the
2024 spend (100 points = 10 units), while the entry stamped
2025-01-01 00:00:00 is not (it is counted toward 2025 instead). -/
theorem year_boundary_inclusive :
    get_customer_spending_this_year boundary_ledger 1 2024 = 10 ∧
    get_customer_spending_this_year boundary_ledger 1 2025 = 5 := by
  constructor <;>
    norm_num [get_customer_spending_this_year, boundary_ledger, sql_sum,
      tsBetween, tsLe, Timestamp.key, POINTS_PER_DOLLAR, List.filter]

/-- `get_customer_point_balance` as a database operation: the connection is
opened, a single `SELECT` runs, the connection is closed; the database
state is returned unchanged together with the value read. -/
def balance_op (s : State) (cid : Nat) : State × Int :=
  (s, get_customer_point_balance s.ledger cid)

/-- `get_customer_spending_this_year` as a database operation: a single
`SELECT`, state returned unchanged with the value read. -/
def yearly_spend_op (s : State) (cid : Nat) (current_year : Nat) : State × ℚ :=
  (s, get_customer_spending_this_year s.ledger cid current_year)

/-- C8: balance and yearly-spend are pure reads: neither changes the
ledger or the Customers table, and running either twice with no
intervening write returns the same value both times. -/
theorem reads_are_pure (s : State) (cid year : Nat) :
    (balance_op s cid).1 = s ∧
    balance_op ((balance_op s cid).1) cid = balance_op s cid ∧
    (yearly_spend_op s cid year).1 = s ∧
    yearly_spend_op ((yearly_spend_op s cid year).1) cid year
      = yearly_spend_op s cid year :=
  ⟨rfl, rfl, rfl, rfl⟩

theorem balance_append_single (l : List LedgerEntry) (e : LedgerEntry) (cid : Nat) :
    get_customer_point_balance (l ++ [e]) cid
      = get_customer_point_balance l cid
        + (if e.customer_id = cid then e.points_change else 0) := by
  rw [get_customer_point_balance_eq_spec, get_customer_point_balance_eq_spec]
  simp [balance_spec]

/-- C2: on the Redeem Reward page, with the customer and the selected
reward both resolved, a redemption of cost `points_cost` records exactly
one `redeem` ledger entry of `-points_cost` when the balance covers the
cost (the balance drops by exactly the cost), and otherwise reports
insufficient points and leaves the state — hence the balance — unchanged. -/
theorem redeem_guarded_by_balance (s : State) (email : String) (rewards : List Reward)
    (selected_id : Nat) (now : Timestamp) (c : Customer) (r : Reward)
    (hc : get_customer_by_email email s.customers = some c)
    (hr : (rewards.filter (fun rw => rw.reward_id == selected_id)).head? = some r) :
    (r.points_cost ≤ get_customer_point_balance s.ledger c.customer_id →
      redeem_page s email rewards selected_id now
        = (⟨s.ledger ++ [⟨c.customer_id, -r.points_cost, "redeem",
            "Redeemed: " ++ r.name, now⟩], s.customers⟩, UiResult.success) ∧
      get_customer_point_balance (s.ledger ++ [⟨c.customer_id, -r.points_cost,
          "redeem", "Redeemed: " ++ r.name, now⟩]) c.customer_id
        = get_customer_point_balance s.ledger c.customer_id - r.points_cost) ∧
    (get_customer_point_balance s.ledger c.customer_id < r.points_cost →
      redeem_page s email rewards selected_id now = (s, UiResult.insufficientPoints)) := by
  constructor
  · intro hle
    constructor
    · simp [redeem_page, hc, hr, add_points_transaction, hle]
    · rw [balance_append_single]
      simp [Int.sub_eq_add_neg]
  · intro hlt
    simp [redeem_page, hc, hr, not_le.mpr hlt]

/-- Customer used by the concrete redemption scenario. -/
def annC : Customer := ⟨1, "ann@example.com", "Ann", "Lee", "Standard"⟩

/-- Reward used by the concrete redemption scenario. -/
def mugR : Reward := ⟨7, "Mug", 80⟩

/-- State for the concrete redemption scenario: Ann holds 100 points. -/
def redeemState : State :=
  ⟨[⟨1, 100, "earn", "Order #1", ⟨2024, 3, 5, 10, 0, 0⟩⟩], [annC]⟩

/-- Witness for C2: with balance 100 and cost 80 the redemption succeeds,
appends the `redeem` entry, and the balance drops by the cost. -/
theorem redeem_guarded_by_balance_witness :
    redeem_page redeemState "ann@example.com" [mugR] 7 ⟨2024, 3, 6, 10, 0, 0⟩
      = (⟨redeemState.ledger ++ [⟨annC.customer_id, -mugR.points_cost, "redeem",
          "Redeemed: " ++ mugR.name, ⟨2024, 3, 6, 10, 0, 0⟩⟩],
          redeemState.customers⟩, UiResult.success) ∧
    get_customer_point_balance (redeemState.ledger ++ [⟨annC.customer_id,
        -mugR.points_cost, "redeem", "Redeemed: " ++ mugR.name,
        ⟨2024, 3, 6, 10, 0, 0⟩⟩]) annC.customer_id
      = get_customer_point_balance redeemState.ledger annC.customer_id
        - mugR.points_cost :=
  (redeem_guarded_by_balance redeemState "ann@example.com" [mugR] 7
    ⟨2024, 3, 6, 10, 0, 0⟩ annC mugR (by decide) (by decide)).1 (by decide)

/-- C10: the Redeem Reward page never touches the Customers table — it
records the ledger entry but does not invoke the tier re-evaluation (which
runs only on the Add Points and Customer Service pages) — so no redemption,
successful or not, changes any customer's stored tier. -/
theorem redeem_preserves_tier (s : State) (email : String) (rewards : List Reward)
    (selected_id : Nat) (now : Timestamp) :
    ((redeem_page s email rewards selected_id now).1).customers = s.customers := by
  cases hc : get_customer_by_email email s.customers with
  | none => simp [redeem_page, hc]
  | some c =>
    cases hr : (rewards.filter (fun r => r.reward_id == selected_id)).head? with
    | none => simp [redeem_page, hc, hr]
    | some r =>
      by_cases h : r.points_cost ≤ get_customer_point_balance s.ledger c.customer_id
      · simp [redeem_page, hc, hr, h]
      · simp [redeem_page, hc, hr, h]

/-- State for the manual-adjustment scenario: Bob has no ledger entries,
so his balance is 0. -/
def csState : State := ⟨[], [⟨3, "bob@example.com", "Bob", "Kim", "Standard"⟩]⟩

/-- C9: a manual adjustment is inserted with no precondition on the
resulting balance: adjusting Bob by -100 from balance 0 succeeds and
leaves a negative balance of -100. -/
theorem manual_adjust_unconditional :
    (customer_service_page csState "bob@example.com" (-100) "goodwill correction"
        ⟨2024, 7, 1, 9, 0, 0⟩).2 = UiResult.success ∧
    get_customer_point_balance csState.ledger 3 = 0 ∧
    get_customer_point_balance ((customer_service_page csState "bob@example.com"
        (-100) "goodwill correction" ⟨2024, 7, 1, 9, 0, 0⟩).1).ledger 3 = -100 := by
  have hpage : customer_service_page csState "bob@example.com" (-100)
      "goodwill correction" ⟨2024, 7, 1, 9, 0, 0⟩
      = (⟨[⟨3, -100, "manual_adjust", "goodwill correction", ⟨2024, 7, 1, 9, 0, 0⟩⟩],
          csState.customers⟩, UiResult.success) := by
    have h1 : ¬(("bob@example.com" : String) = "") := by decide
    have h2 : (("manual_adjust" : String) == "earn") = false := by decide
    have h3 : ¬(("Gold" : String) = "Standard") := by decide
    have h4 : ¬(("goodwill correction" : String) = "") := by decide
    norm_num [customer_service_page, csState, get_customer_by_email,
      add_points_transaction, update_customer_tier, get_customer_by_id,
      get_customer_spending_this_year, sql_sum, new_tier_for,
      GOLD_TIER_THRESHOLD, POINTS_PER_DOLLAR, List.filter,
      h1, h2, h3, h4]
  rw [hpage]
  refine ⟨rfl, by decide, by decide⟩

/-- C5 counterexample: `add_points_transaction` performs no validation at
all.  With `points_change = 0`, a transaction type outside the
enumeration, and a customer id that exists in no Customers table, it still
inserts the ledger entry instead of rejecting the input. -/
theorem record_accepts_invalid_input :
    add_points_transaction [] 1 0 "bogus" "note" ⟨2024, 6, 1, 12, 0, 0⟩
      = [⟨1, 0, "bogus", "note", ⟨2024, 6, 1, 12, 0, 0⟩⟩] ∧
    get_customer_by_id 1 [] = none := by
  decide

/-- C5 amended: input validation lives in the page layer, not in the
recorder: the Customer Service page rejects a zero adjustment and an
unknown customer email before any write (state unchanged), while
`add_points_transaction` itself always inserts exactly one entry,
whatever its arguments. -/
theorem validation_at_page_layer :
    (∀ (s : State) (email reason : String) (now : Timestamp),
      customer_service_page s email 0 reason now = (s, UiResult.warningFillFields)) ∧
    (∀ (s : State) (email : String) (points : Int) (reason : String) (now : Timestamp),
      email ≠ "" → points ≠ 0 → reason ≠ "" →
      get_customer_by_email email s.customers = none →
      customer_service_page s email points reason now = (s, UiResult.customerNotFound)) ∧
    (∀ (l : List LedgerEntry) (cid : Nat) (p : Int) (ty note : String) (now : Timestamp),
      (add_points_transaction l cid p ty note now).length = l.length + 1) := by
  refine ⟨?_, ?_, ?_⟩
  · intro s email reason now
    simp [customer_service_page]
  · intro s email points reason now he hp hr hn
    simp [customer_service_page, he, hp, hr, hn]
  · intro l cid p ty note now
    simp [add_points_transaction]

/-- Witness for the amended C5: an adjustment for an email absent from the
Customers table is rejected with no write. -/
theorem validation_at_page_layer_witness :
    customer_service_page ⟨[], []⟩ "x@y.z" 5 "fix" ⟨2024, 1, 2, 3, 4, 5⟩
      = (⟨[], []⟩, UiResult.customerNotFound) :=
  validation_at_page_layer.2.1 ⟨[], []⟩ "x@y.z" 5 "fix" ⟨2024, 1, 2, 3, 4, 5⟩
    (by decide) (by decide) (by decide) rfl

/-- State for the C6 counterexample: Dana's tier is already up to date, so
`update_customer_tier` runs to completion. -/
def danaState : State := ⟨[], [⟨4, "dana@example.com", "Dana", "Roe", "Standard"⟩]⟩

/-- C6 counterexample: `update_customer_tier` completes on Dana but does
not return a `(previous_tier, new_tier, changed)` triple — its body has no
return statement, so the returned value (the second component of the
model's result) is `none`, never `some` triple. -/
theorem update_customer_tier_returns_no_triple :
    ¬ ∃ t : String × String × Bool,
      (update_customer_tier danaState 4 2024).map (fun p => p.2) = some (some t) := by
  have hev : update_customer_tier danaState 4 2024 = some (danaState, none) := by
    have h3 : ¬(("Gold" : String) = "Standard") := by decide
    norm_num [update_customer_tier, danaState, get_customer_by_id,
      get_customer_spending_this_year, sql_sum, new_tier_for,
      GOLD_TIER_THRESHOLD, POINTS_PER_DOLLAR, List.filter, h3]
  rintro ⟨t, ht⟩
  rw [hev] at ht
  simp at ht

/-- C6 amended: `update_customer_tier` returns no value; whenever the
customer row exists it persists the newly classified tier exactly when
that tier differs from the stored one, and writes nothing when the two
are equal. -/
theorem update_customer_tier_conditional_persist (s : State) (cid year : Nat)
    (c : Customer) (hc : get_customer_by_id cid s.customers = some c) :
    (new_tier_for (get_customer_spending_this_year s.ledger cid year) ≠ c.tier →
      update_customer_tier s cid year
        = some (⟨s.ledger, set_tier s.customers cid
            (new_tier_for (get_customer_spending_this_year s.ledger cid year))⟩, none)) ∧
    (new_tier_for (get_customer_spending_this_year s.ledger cid year) = c.tier →
      update_customer_tier s cid year = some (s, none)) := by
  constructor
  · intro h
    simp [update_customer_tier, hc, h]
  · intro h
    simp [update_customer_tier, hc, h]

/-- State for the C6 witness: Eve earned 6000 points in 2024 (600 units of
spend), so her stored Standard tier is out of date. -/
def eveState : State :=
  ⟨[⟨5, 6000, "earn", "Order #9", ⟨2024, 2, 1, 0, 0, 0⟩⟩],
   [⟨5, "eve@example.com", "Eve", "Fox", "Standard"⟩]⟩

/-- Witness for the amended C6: on Eve the classified tier (Gold) differs
from the stored tier (Standard), and the update is persisted. -/
theorem update_customer_tier_conditional_persist_witness :
    update_customer_tier eveState 5 2024
      = some (⟨eveState.ledger, set_tier eveState.customers 5
          (new_tier_for (get_customer_spending_this_year eveState.ledger 5 2024))⟩,
        none) :=
  (update_customer_tier_conditional_persist eveState 5 2024
      ⟨5, "eve@example.com", "Eve", "Fox", "Standard"⟩ (by decide)).1
    (by
      have h2 : (("earn" : String) == "earn") = true := by decide
      have h3 : ¬(("Gold" : String) = "Standard") := by decide
      norm_num [new_tier_for, get_customer_spending_this_year, eveState,
        sql_sum, tsBetween, tsLe, Timestamp.key, GOLD_TIER_THRESHOLD,
        POINTS_PER_DOLLAR, List.filter, h2, h3])
